import Mathlib

/-!
Verification of the econops API client library.

This file gives a shallow embedding, in Lean 4, of the parts of the
`econops` Python package that its specification talks about:

* `callsignature` (econops/client.py, lines 21-44): request signing via
  SHA-256 over the route and the canonical JSON serialization of the
  payload (`json.dumps(request_data, sort_keys=True, separators=(',', ':'))`).
  SHA-256 and UTF-8 are implemented in full so that signatures of concrete
  inputs can be computed by the kernel.
* the on-disk response cache (`get_cached_response`, `cache_response`,
  `Client.clear_cache`, `Client.get_cache_info`): the cache directory is
  modelled as an association list from signature (the file name stem of
  `<signature>.pkl`) to file content; pickle (de)serialization outcomes and
  I/O failures are modelled explicitly, mirroring which exception classes
  each `try/except` in the source actually catches.
* the `Client` dispatcher methods (`get`, `post`, `put`, `patch`,
  `delete`): modelled as the trace of externally visible effects each
  method performs (cache reads/writes, HTTP requests).
* the CLI entry point (econops/cli.py `main`): modelled as a function from
  the `--data` argument, the behavior of `json.loads`, and the transport
  outcome to an exit code plus stdout/stderr lines.
* `Client.__init__` token resolution (`token or os.environ.get('ECONOPS_TOKEN',
  'demo')` followed by the empty-token `ValueError` guard).

Payload values are modelled by an inductive `Json` type covering null,
booleans, integers, strings, arrays and objects (Python dicts with string
keys).  Python dict keys are unique; where a statement needs that fact it
carries an explicit `Nodup` hypothesis on the key list.  Floats are not
modelled: no claim concerns them.

`json.dumps(..., sort_keys=True)` sorts the items of every object by key
(Python compares strings by code points).  A stable sort on entries with
pairwise-distinct keys is uniquely determined by the key order, so the
model uses `List.insertionSort` (which the kernel can evaluate); to keep
the recursion structural the entries are serialized first and the
resulting (key, serialized value) pairs are sorted afterwards, which
`dumps_obj_sort_then_serialize` proves equal to sorting first.
-/

namespace Econops

/-! ## SHA-256 over byte lists (hashlib.sha256) -/

/-- Bit width modulus for 32-bit words. -/
def M32 : Nat := 4294967296

/-- Right rotation of a 32-bit word (values kept reduced below `M32`). -/
def rotr (n x : Nat) : Nat := ((x >>> n) ||| (x <<< (32 - n))) % M32

/-- The 64 SHA-256 round constants (fractional parts of cube roots of the
first 64 primes). -/
def shaK : Array Nat := #[1116352408, 1899447441, 3049323471, 3921009573, 961987163, 1508970993, 2453635748, 2870763221, 3624381080, 310598401, 607225278, 1426881987, 1925078388, 2162078206, 2614888103, 3248222580, 3835390401, 4022224774, 264347078, 604807628, 770255983, 1249150122, 1555081692, 1996064986, 2554220882, 2821834349, 2952996808, 3210313671, 3336571891, 3584528711, 113926993, 338241895, 666307205, 773529912, 1294757372, 1396182291, 1695183700, 1986661051, 2177026350, 2456956037, 2730485921, 2820302411, 3259730800, 3345764771, 3516065817, 3600352804, 4094571909, 275423344, 430227734, 506948616, 659060556, 883997877, 958139571, 1322822218, 1537002063, 1747873779, 1955562222, 2024104815, 2227730452, 2361852424, 2428436474, 2756734187, 3204031479, 3329325298]

/-- Big-endian packing of bytes into 32-bit words. -/
def toWords : List Nat → List Nat
  | b0 :: b1 :: b2 :: b3 :: rest => (((b0 * 256 + b1) * 256 + b2) * 256 + b3) :: toWords rest
  | _ => []

/-- Message-schedule extension of the 16 block words to 64 words. -/
def extendW (w0 : Array Nat) : Array Nat :=
  (List.range 48).foldl (fun w j =>
    let i := j + 16
    let w15 := w.getD (i - 15) 0
    let w2 := w.getD (i - 2) 0
    let s0 := (rotr 7 w15) ^^^ (rotr 18 w15) ^^^ (w15 >>> 3)
    let s1 := (rotr 17 w2) ^^^ (rotr 19 w2) ^^^ (w2 >>> 10)
    w.push ((w.getD (i - 16) 0 + s0 + w.getD (i - 7) 0 + s1) % M32)) w0

/-- The eight 32-bit words of SHA-256 state. -/
structure H8 where
  a : Nat
  b : Nat
  c : Nat
  d : Nat
  e : Nat
  f : Nat
  g : Nat
  h : Nat

/-- Initial SHA-256 state (fractional parts of square roots of the first
eight primes). -/
def initH : H8 := ⟨1779033703, 3144134277, 1013904242, 2773480762, 1359893119, 2600822924, 528734635, 1541459225⟩

/-- SHA-256 compression of one 64-byte block into the running state. -/
def compress (st : H8) (block : List Nat) : H8 :=
  let w := extendW (Array.mk (toWords block))
  let s := (List.range 64).foldl (fun s i =>
    let s1 := (rotr 6 s.e) ^^^ (rotr 11 s.e) ^^^ (rotr 25 s.e)
    let ch := (s.e &&& s.f) ^^^ ((4294967295 ^^^ s.e) &&& s.g)
    let temp1 := (s.h + s1 + ch + shaK.getD i 0 + w.getD i 0) % M32
    let s0 := (rotr 2 s.a) ^^^ (rotr 13 s.a) ^^^ (rotr 22 s.a)
    let maj := (s.a &&& s.b) ^^^ (s.a &&& s.c) ^^^ (s.b &&& s.c)
    let temp2 := (s0 + maj) % M32
    H8.mk ((temp1 + temp2) % M32) s.a s.b s.c ((s.d + temp1) % M32) s.e s.f s.g) st
  H8.mk ((st.a + s.a) % M32) ((st.b + s.b) % M32) ((st.c + s.c) % M32) ((st.d + s.d) % M32)
    ((st.e + s.e) % M32) ((st.f + s.f) % M32) ((st.g + s.g) % M32) ((st.h + s.h) % M32)

/-- Big-endian 64-bit encoding of the message bit length. -/
def be64 (n : Nat) : List Nat :=
  [(n >>> 56) % 256, (n >>> 48) % 256, (n >>> 40) % 256, (n >>> 32) % 256,
   (n >>> 24) % 256, (n >>> 16) % 256, (n >>> 8) % 256, n % 256]

/-- SHA-256 padding: append `0x80`, zero bytes up to 56 mod 64, then the
bit length. -/
def padMessage (msg : List Nat) : List Nat :=
  msg ++ 128 :: List.replicate ((119 - msg.length % 64) % 64) 0 ++ be64 (8 * msg.length)

/-- Split a byte list into 64-byte blocks (fuel-based so that the kernel
can evaluate it; the fuel is an upper bound on the number of blocks). -/
def toBlocksAux : Nat → List Nat → List (List Nat)
  | 0, _ => []
  | _, [] => []
  | fuel + 1, x :: rest => ((x :: rest).take 64) :: toBlocksAux fuel ((x :: rest).drop 64)

/-- Split a byte list into 64-byte blocks. -/
def toBlocks (l : List Nat) : List (List Nat) := toBlocksAux l.length l

/-- SHA-256 of a byte list, as the final eight-word state. -/
def sha256h8 (msg : List Nat) : H8 := (toBlocks (padMessage msg)).foldl compress initH

/-- Lowercase hexadecimal digit for a value below 16. -/
def hexDigit (n : Nat) : Char := if n < 10 then Char.ofNat (48 + n) else Char.ofNat (87 + n)

/-- Eight lowercase hex characters of a 32-bit word, most significant
nibble first. -/
def wordHex (w : Nat) : List Char :=
  [hexDigit ((w >>> 28) % 16), hexDigit ((w >>> 24) % 16), hexDigit ((w >>> 20) % 16),
   hexDigit ((w >>> 16) % 16), hexDigit ((w >>> 12) % 16), hexDigit ((w >>> 8) % 16),
   hexDigit ((w >>> 4) % 16), hexDigit (w % 16)]

/-- The character list of `hashlib.sha256(msg).hexdigest()`. -/
def sha256hexChars (msg : List Nat) : List Char :=
  let s := sha256h8 msg
  wordHex s.a ++ wordHex s.b ++ wordHex s.c ++ wordHex s.d ++
    wordHex s.e ++ wordHex s.f ++ wordHex s.g ++ wordHex s.h

/-- Model of `hashlib.sha256(msg).hexdigest()`. -/
def sha256hexdigest (msg : List Nat) : String := String.mk (sha256hexChars msg)

/-- UTF-8 encoding of one character (Python `str.encode('utf-8')` on one
code point; Lean `Char` and Python `str` both range over Unicode scalar
values). -/
def charUtf8 (c : Char) : List Nat :=
  let n := c.toNat
  if n < 128 then [n]
  else if n < 2048 then [192 ||| (n >>> 6), 128 ||| (n &&& 63)]
  else if n < 65536 then [224 ||| (n >>> 12), 128 ||| ((n >>> 6) &&& 63), 128 ||| (n &&& 63)]
  else [240 ||| (n >>> 18), 128 ||| ((n >>> 12) &&& 63), 128 ||| ((n >>> 6) &&& 63), 128 ||| (n &&& 63)]

/-- Model of Python `s.encode('utf-8')`. -/
def utf8Bytes (s : String) : List Nat := (s.data.map charUtf8).flatten

/-! ## JSON values and `json.dumps(..., sort_keys=True, separators=(',', ':'))` -/

/-- JSON-serializable Python values: `None`, `bool`, `int`, `str`, `list`,
`dict` with `str` keys.  (Floats are not modelled; no claim concerns
them.) -/
inductive Json where
  | null : Json
  | bool : Bool → Json
  | num : Int → Json
  | str : String → Json
  | arr : List Json → Json
  | obj : List (String × Json) → Json

/-- Lexicographic (code point) comparison of character lists: the order
Python uses to compare `str` values, hence the order `sorted`/`sort_keys`
sorts dict keys by. -/
def charListLe : List Char → List Char → Bool
  | [], _ => true
  | _ :: _, [] => false
  | x :: xs, y :: ys =>
    if x.toNat < y.toNat then true
    else if x.toNat = y.toNat then charListLe xs ys
    else false

/-- Key comparison on (key, value) pairs, comparing only the keys. -/
def keyLe {α : Type} (a b : String × α) : Bool := charListLe a.1.data b.1.data

/-- Propositional form of `keyLe`, for use with `List.insertionSort`. -/
def keyRel {α : Type} (a b : String × α) : Prop := keyLe a b = true

instance {α : Type} : DecidableRel (keyRel (α := α)) :=
  fun a b => instDecidableEqBool (keyLe a b) true

/-- Sorting of object entries by key.  `json.dumps(..., sort_keys=True)`
uses `sorted(dct.items())`; dict keys are pairwise distinct, so any sort
that orders entries by key produces the same list, and insertion sort is
used because the kernel can evaluate it. -/
def sortByKey {α : Type} (l : List (String × α)) : List (String × α) := l.insertionSort keyRel

/-- Four lowercase hex characters, for `\uXXXX` escapes. -/
def hex4 (n : Nat) : List Char :=
  [hexDigit ((n >>> 12) % 16), hexDigit ((n >>> 8) % 16), hexDigit ((n >>> 4) % 16), hexDigit (n % 16)]

/-- JSON escaping of one character, as `json.dumps` with the default
`ensure_ascii=True` does it: two-character escapes for `"`, `\` and the
five named control characters, `\uXXXX` for the remaining control
characters and all non-ASCII characters (with surrogate pairs above
U+FFFF), everything else literal. -/
def escapeChar (c : Char) : List Char :=
  if c = Char.ofNat 34 then ['\\', '"']
  else if c = Char.ofNat 92 then ['\\', '\\']
  else if c = Char.ofNat 8 then ['\\', 'b']
  else if c = Char.ofNat 9 then ['\\', 't']
  else if c = Char.ofNat 10 then ['\\', 'n']
  else if c = Char.ofNat 12 then ['\\', 'f']
  else if c = Char.ofNat 13 then ['\\', 'r']
  else if c.toNat < 32 ∨ 127 ≤ c.toNat then
    if c.toNat < 65536 then '\\' :: 'u' :: hex4 c.toNat
    else ('\\' :: 'u' :: hex4 (55296 + ((c.toNat - 65536) >>> 10))) ++
         ('\\' :: 'u' :: hex4 (56320 + ((c.toNat - 65536) &&& 1023)))
  else [c]

/-- JSON serialization of a Python string, including the surrounding
double quotes. -/
def dumpString (s : String) : String :=
  String.mk ('"' :: (s.data.map escapeChar).flatten ++ ['"'])

/-- Decimal digits of a natural number (fuel-based for kernel
evaluation). -/
def natDigits : Nat → Nat → List Char
  | 0, _ => []
  | fuel + 1, n => if n < 10 then [hexDigit n] else natDigits fuel (n / 10) ++ [hexDigit (n % 10)]

/-- Python `repr` of an `int`. -/
def intStr : Int → String
  | .ofNat n => String.mk (natDigits (n + 1) n)
  | .negSucc m => String.mk ('-' :: natDigits (m + 2) (m + 1))

/-- Serialization of one already-serialized object entry: quoted escaped
key, `:` separator (from `separators=(',', ':')`), serialized value. -/
def entryStr (kv : String × String) : String := dumpString kv.1 ++ ":" ++ kv.2

mutual

/-- Model of `json.dumps(j, sort_keys=True, separators=(',', ':'))`.
Object entries are serialized first and the (key, serialized value) pairs
sorted afterwards, keeping the recursion structural;
`dumps_obj_sort_then_serialize` below shows this equals serializing the
key-sorted entry list, which is what the Python encoder does. -/
def dumps : Json → String
  | .null => "null"
  | .bool true => "true"
  | .bool false => "false"
  | .num n => intStr n
  | .str s => dumpString s
  | .arr xs => "[" ++ String.intercalate "," (dumpList xs) ++ "]"
  | .obj kvs => "\x7b" ++ String.intercalate "," ((sortByKey (dumpEntries kvs)).map entryStr) ++ "\x7d"
termination_by structural j => j

/-- Serialization of the elements of a JSON array, in order. -/
def dumpList : List Json → List String
  | [] => []
  | x :: xs => dumps x :: dumpList xs
termination_by structural l => l

/-- Serialization of the values of object entries, keeping keys. -/
def dumpEntries : List (String × Json) → List (String × String)
  | [] => []
  | (k, v) :: rest => (k, dumps v) :: dumpEntries rest
termination_by structural l => l

end

mutual

/-- Canonical form of a JSON value: every object's entries sorted by key.
Two payloads are equal as nested key-value maps, differing only in key
insertion order, exactly when their canonical forms coincide (given the
dict invariant that keys are pairwise distinct). -/
def canon : Json → Json
  | .null => .null
  | .bool b => .bool b
  | .num n => .num n
  | .str s => .str s
  | .arr xs => .arr (canonList xs)
  | .obj kvs => .obj (sortByKey (canonEntries kvs))
termination_by structural j => j

/-- Canonical forms of the elements of a JSON array. -/
def canonList : List Json → List Json
  | [] => []
  | x :: xs => canon x :: canonList xs
termination_by structural l => l

/-- Canonical forms of the values of object entries. -/
def canonEntries : List (String × Json) → List (String × Json)
  | [] => []
  | (k, v) :: rest => (k, canon v) :: canonEntries rest
termination_by structural l => l

end

/-! ## callsignature (econops/client.py lines 21-44) -/

/-- Model of `callsignature(route, request_data, pregiven)`: if `pregiven`
is not `None` return it directly; otherwise serialize the payload with
sorted keys and fixed separators, and concatenate the first 8 characters
of the SHA-256 hex digest of the route with the full SHA-256 hex digest of
the serialized payload. -/
def callsignature (route : String) (request_data : Json) (pregiven : Option String) : String :=
  match pregiven with
  | some s => s
  | none =>
    let sorted_data := dumps request_data
    let route_hash := (sha256hexChars (utf8Bytes route)).take 8
    String.mk (route_hash ++ sha256hexChars (utf8Bytes sorted_data))

/-- Hexadecimal character test: a decimal digit or one of `a`-`f`. -/
def isHexChar (c : Char) : Bool :=
  (48 ≤ c.toNat && c.toNat ≤ 57) || (97 ≤ c.toNat && c.toNat ≤ 102)

/-! ## The response cache (econops/client.py lines 47-95, 339-354)

The cache directory is modelled as an association list from signature (the
stem of the file name `<signature>.pkl`) to file content.  File content is
modelled by the outcome `pickle.load` has on it, because that outcome is
all `get_cached_response` inspects: a value, or an exception.  Per the
`pickle` documentation, unpickling can raise `pickle.UnpicklingError` (a
subclass of `pickle.PickleError`), `EOFError`, and also other exceptions
such as `AttributeError`, `ImportError` and `IndexError`; the source
catches exactly `(pickle.PickleError, EOFError)`. -/

/-- Content of one cache file, by its deserialization outcome. -/
inductive PickleData (α : Type) where
  | ok : α → PickleData α
  | corruptPickle : PickleData α
  | corruptEof : PickleData α
  | corruptOther : PickleData α

/-- The modelled Python exceptions. -/
inductive PyExn where
  | pickleError : PyExn
  | eofError : PyExn
  | otherError : PyExn

/-- The cache directory: file name stem paired with file content. -/
abbrev CacheFS (α : Type) := List (String × PickleData α)

/-- Model of `pickle.load` on a cache file. -/
def pickleLoad {α : Type} : PickleData α → Except PyExn α
  | .ok v => .ok v
  | .corruptPickle => .error .pickleError
  | .corruptEof => .error .eofError
  | .corruptOther => .error .otherError

/-- File existence check plus content fetch (`cache_file.exists()` and
`open(cache_file, 'rb')`). -/
def fsLookup {α : Type} : CacheFS α → String → Option (PickleData α)
  | [], _ => none
  | (k, d) :: rest, s => if k = s then some d else fsLookup rest s

/-- Model of `cache_file.unlink(missing_ok=True)`. -/
def fsErase {α : Type} : CacheFS α → String → CacheFS α
  | [], _ => []
  | (k, d) :: rest, s => if k = s then rest else (k, d) :: fsErase rest s

/-- Model of writing `<signature>.pkl`, overwriting any existing file. -/
def fsInsert {α : Type} : CacheFS α → String → PickleData α → CacheFS α
  | [], s, d => [(s, d)]
  | (k, e) :: rest, s, d => if k = s then (s, d) :: rest else (k, e) :: fsInsert rest s d

/-- Model of `get_cached_response(signature)` (client.py lines 54-77): if
the cache file exists, load it; on `pickle.PickleError` or `EOFError`
delete the file and fall through to `return None`; any other exception
escapes the `except` clause and propagates. -/
def get_cached_response {α : Type} (fs : CacheFS α) (signature : String) :
    Except PyExn (Option α × CacheFS α) :=
  match fsLookup fs signature with
  | none => .ok (none, fs)
  | some d =>
    match pickleLoad d with
    | .ok v => .ok (some v, fs)
    | .error .pickleError => .ok (none, fsErase fs signature)
    | .error .eofError => .ok (none, fsErase fs signature)
    | .error e => .error e

/-- Outcome of the `open`/`pickle.dump` calls inside `cache_response`,
chosen by the environment: the write succeeds, the file system raises
`IOError`/`OSError` (one class in Python 3), or `pickle.dump` raises
`pickle.PicklingError` on an unpicklable value. -/
inductive WriteOutcome where
  | success : WriteOutcome
  | osError : WriteOutcome
  | picklingError : WriteOutcome

/-- Model of `cache_response(signature, response_data)` (client.py lines
80-95): `except (IOError, OSError): pass` swallows file system errors; a
`pickle.PicklingError` (a `pickle.PickleError`, not an `OSError`) is not
caught by that clause and propagates. -/
def cache_response {α : Type} (fs : CacheFS α) (signature : String) (response_data : α)
    (w : WriteOutcome) : Except PyExn (CacheFS α) :=
  match w with
  | .success => .ok (fsInsert fs signature (.ok response_data))
  | .osError => .ok fs
  | .picklingError => .error .pickleError

/-- Model of `Client.clear_cache` (client.py lines 339-343): every `*.pkl`
file in the cache directory is unlinked, and the model holds only such
files. -/
def clear_cache {α : Type} (_fs : CacheFS α) : CacheFS α := []

/-- The `cached_requests` field of `Client.get_cache_info` (client.py
lines 345-354): the number of `*.pkl` files.  The directory path and byte
size fields are file system details outside the model. -/
def cached_requests {α : Type} (fs : CacheFS α) : Nat := fs.length

/-! ## The Client dispatcher (econops/client.py lines 98-337)

Each dispatcher method is modelled by the sequence of externally visible
effects it performs.  `requests.Response` contents, URL joining and the
timing printout do not affect any claim and are not modelled. -/

/-- Model of `Client.__init__`ʼs stored configuration. -/
structure Client where
  token : String
  base_url : String
  use_cache : Bool
  use_certificate : Bool

/-- One externally visible effect of a dispatcher method: a call to
`get_cached_response(sig)`, a call to `cache_response(sig, ...)`, or an
HTTP request carrying the signature in the `X-Signature` header. -/
inductive Effect where
  | cacheRead : String → Effect
  | cacheWrite : String → Effect
  | httpRequest : String → String → String → Effect

/-- Python `data or {}` in the dispatchers: `None` (and the falsy empty
dict, which coincides with the default) is replaced by `{}`. -/
def pyDataOr (data : Option Json) : Json :=
  match data with
  | none => Json.obj []
  | some j => j

/-- Effect trace of `Client.get(route)` (lines 151-183): compute
`callsignature(route, {})`, then issue the HTTP request. -/
def client_get_trace (_c : Client) (route : String) : List Effect :=
  [Effect.httpRequest "GET" route (callsignature route (Json.obj []) none)]

/-- Effect trace of `Client.delete(route)` (lines 186-218). -/
def client_delete_trace (_c : Client) (route : String) : List Effect :=
  [Effect.httpRequest "DELETE" route (callsignature route (Json.obj []) none)]

/-- Effect trace of `Client.post(route, data)` (lines 221-251): compute
`callsignature(route, data or {})`, then issue the HTTP request. -/
def client_post_trace (_c : Client) (route : String) (data : Option Json) : List Effect :=
  [Effect.httpRequest "POST" route (callsignature route (pyDataOr data) none)]

/-- Effect trace of `Client.put(route, data)` (lines 254-286). -/
def client_put_trace (_c : Client) (route : String) (data : Option Json) : List Effect :=
  [Effect.httpRequest "PUT" route (callsignature route (pyDataOr data) none)]

/-- Effect trace of `Client.patch(route, data)` (lines 289-321). -/
def client_patch_trace (_c : Client) (route : String) (data : Option Json) : List Effect :=
  [Effect.httpRequest "PATCH" route (callsignature route (pyDataOr data) none)]

/-! ## Client.__init__ token resolution (econops/client.py lines 114-124) -/

/-- Python `a or b` on an optional string: `None` and the empty string are
falsy. -/
def pyStrOr (a : Option String) (b : String) : String :=
  match a with
  | none => b
  | some s => if s = "" then b else s

/-- Model of the token resolution in `Client.__init__`:
`token or os.environ.get('ECONOPS_TOKEN', 'demo')` followed by
`if not self.token: raise ValueError(...)`.  The second argument is the
state of the `ECONOPS_TOKEN` environment variable (`none` = unset). -/
def client_init_token (token : Option String) (econops_token_env : Option String) :
    Except String String :=
  let t := pyStrOr token (econops_token_env.getD "demo")
  if t = "" then
    .error "Token not provided and 'ECONOPS_TOKEN' environment variable not found"
  else
    .ok t

/-! ## The CLI entry point (econops/cli.py lines 78-120)

`main` is modelled as a function of the `--data` argument (`none` = flag
absent), the behavior of `json.loads` on it, and the combined outcome of
client construction plus the HTTP request (an `Except`: any exception
raised inside the outer `try` is its `.error` case, a response is `.ok
(status_code, body)`).  The result is the process exit code and the lines
printed to stderr and stdout.  All four `--method` branches behave
identically here: each calls the matching dispatcher and falls through to
the same response handling.  `sys.exit(1)` raises `SystemExit`, which
`except Exception` does not catch. -/

/-- Decimal string of a natural number. -/
def natStr (n : Nat) : String := String.mk (natDigits (n + 1) n)

/-- Exit code and printed lines of one CLI invocation. -/
structure CliOutcome where
  exitCode : Nat
  stderrLines : List String
  stdoutLines : List String

/-- Response handling of `main` (cli.py lines 91-120): transport or
construction errors are caught by the outer `except Exception` and exit 1;
a 200 response prints its body to stdout and exits 0 (falling off the end
of `main`); any other status prints to stderr and exits 1. -/
def cli_send (send : Except String (Nat × String)) : CliOutcome :=
  match send with
  | .error e => ⟨1, ["Error: " ++ e], []⟩
  | .ok (status, body) =>
    if status = 200 then ⟨0, [], [body]⟩
    else ⟨1, ["Error " ++ natStr status ++ ": " ++ body], []⟩

/-- Model of `main` (cli.py lines 78-120).  `if args.data:` is Python
truthiness: both an absent `--data` and `--data ''` skip JSON parsing
entirely; a non-empty argument is parsed, and a parse failure prints to
stderr and exits 1 via `sys.exit(1)`. -/
def cli_main (dataArg : Option String) (loads : String → Except String Unit)
    (send : Except String (Nat × String)) : CliOutcome :=
  match dataArg with
  | none => cli_send send
  | some s =>
    if s = "" then cli_send send
    else
      match loads s with
      | .error e => ⟨1, ["Error parsing JSON data: " ++ e], []⟩
      | .ok _ => cli_send send

set_option maxRecDepth 40000

/-! Validation of the executable model against reference values computed
with CPython's `hashlib` and `json` modules. -/

example : sha256hexdigest (utf8Bytes "abc") =
    "ba7816bf8f01cfea414140de5dae2223b00361a396177a9cb410ff61f20015ad" := by decide

example : sha256hexdigest (utf8Bytes "") =
    "e3b0c44298fc1c149afbf4c8996fb92427ae41e4649b934ca495991b7852b855" := by decide

example : dumps (.obj [("b", .num 1), ("a", .arr [.bool true, .null, .str "x\né"]), ("c", .num (-12))]) =
    "\x7b\"a\":[true,null,\"x\\n\\u00e9\"],\"b\":1,\"c\":-12\x7d" := by decide

example : callsignature "/test" (.obj [("key", .str "value")]) .none =
    "b306d9ffe43abcf3375244839c012f9633f95862d232a95b00d5bc7348b3098b9fed7f32" := by decide

/-! ## Order properties of the key comparison -/

/-- Characters with equal code points are equal. -/
theorem charToNat_inj {x y : Char} (h : x.toNat = y.toNat) : x = y :=
  Char.eq_of_val_eq (UInt32.toNat.inj h)

/-- The code point order on character lists is total. -/
theorem charListLe_total (a b : List Char) : charListLe a b = true ∨ charListLe b a = true := by
  induction a generalizing b with
  | nil => left; rfl
  | cons x xs ih =>
    cases b with
    | nil => right; rfl
    | cons y ys =>
      simp only [charListLe]
      rcases Nat.lt_trichotomy x.toNat y.toNat with h | h | h
      · left; rw [if_pos h]
      · rw [if_neg (by omega), if_pos h, if_neg (by omega), if_pos h.symm]
        exact ih ys
      · right; rw [if_pos h]

/-- The code point order on character lists is transitive. -/
theorem charListLe_trans {a b c : List Char} (h₁ : charListLe a b = true)
    (h₂ : charListLe b c = true) : charListLe a c = true := by
  induction a generalizing b c with
  | nil => rfl
  | cons x xs ih =>
    cases b with
    | nil => simp [charListLe] at h₁
    | cons y ys =>
      cases c with
      | nil => simp [charListLe] at h₂
      | cons z zs =>
        simp only [charListLe] at h₁ h₂ ⊢
        rcases Nat.lt_trichotomy x.toNat y.toNat with hxy | hxy | hxy
        · rcases Nat.lt_trichotomy y.toNat z.toNat with hyz | hyz | hyz
          · rw [if_pos (by omega)]
          · rw [if_pos (by omega)]
          · rw [if_neg (by omega), if_neg (by omega)] at h₂; simp at h₂
        · rcases Nat.lt_trichotomy y.toNat z.toNat with hyz | hyz | hyz
          · rw [if_pos (by omega)]
          · rw [if_neg (by omega), if_pos (by omega)]
            rw [if_neg (by omega), if_pos hxy] at h₁
            rw [if_neg (by omega), if_pos hyz] at h₂
            exact ih h₁ h₂
          · rw [if_neg (by omega), if_neg (by omega)] at h₂; simp at h₂
        · rw [if_neg (by omega), if_neg (by omega)] at h₁; simp at h₁

/-- The code point order on character lists is antisymmetric. -/
theorem charListLe_antisymm {a b : List Char} (h₁ : charListLe a b = true)
    (h₂ : charListLe b a = true) : a = b := by
  induction a generalizing b with
  | nil =>
    cases b with
    | nil => rfl
    | cons y ys => simp [charListLe] at h₂
  | cons x xs ih =>
    cases b with
    | nil => simp [charListLe] at h₁
    | cons y ys =>
      simp only [charListLe] at h₁ h₂
      rcases Nat.lt_trichotomy x.toNat y.toNat with hxy | hxy | hxy
      · rw [if_neg (by omega), if_neg (by omega)] at h₂; simp at h₂
      · rw [if_neg (by omega), if_pos hxy] at h₁
        rw [if_neg (by omega), if_pos hxy.symm] at h₂
        rw [charToNat_inj hxy, ih h₁ h₂]
      · rw [if_neg (by omega), if_neg (by omega)] at h₁; simp at h₁

/-- Strings whose character data agree under `charListLe` both ways are
equal. -/
theorem stringLe_antisymm {a b : String} (h₁ : charListLe a.data b.data = true)
    (h₂ : charListLe b.data a.data = true) : a = b :=
  String.ext (charListLe_antisymm h₁ h₂)

instance keyRelTotal {α : Type} : IsTotal (String × α) keyRel :=
  ⟨fun a b => charListLe_total a.1.data b.1.data⟩

instance keyRelTrans {α : Type} : IsTrans (String × α) keyRel :=
  ⟨fun _ _ _ h₁ h₂ => charListLe_trans h₁ h₂⟩

/-- Strict key order: key order together with distinct keys.  On entry
lists with pairwise-distinct keys, `keyRel`-sortedness upgrades to
`keyStrict`-sortedness, and `keyStrict` is (vacuously) antisymmetric, so
sorted lists are unique within a permutation class. -/
def keyStrict {α : Type} (a b : String × α) : Prop := keyRel a b ∧ a.1 ≠ b.1

instance keyStrictAntisymm {α : Type} : IsAntisymm (String × α) keyStrict :=
  ⟨fun _ _ h₁ h₂ => absurd (stringLe_antisymm h₁.1 h₂.1) h₁.2⟩

/-- A `keyRel`-sorted entry list with pairwise-distinct keys is
`keyStrict`-sorted. -/
theorem sorted_keyStrict {α : Type} {l : List (String × α)} (hs : l.Pairwise keyRel)
    (hnd : (l.map Prod.fst).Nodup) : l.Pairwise keyStrict := by
  rw [List.Nodup, List.pairwise_map] at hnd
  exact (hs.and hnd).imp (fun h => ⟨h.1, h.2⟩)

/-- Two entry lists that are permutations of each other, both sorted by
key, with pairwise-distinct keys, are equal. -/
theorem sorted_perm_eq_of_nodup_keys {α : Type} {l₁ l₂ : List (String × α)}
    (hp : l₁.Perm l₂) (hs₁ : l₁.Pairwise keyRel) (hs₂ : l₂.Pairwise keyRel)
    (hnd : (l₁.map Prod.fst).Nodup) : l₁ = l₂ :=
  List.eq_of_perm_of_sorted (r := keyStrict) hp (sorted_keyStrict hs₁ hnd)
    (sorted_keyStrict hs₂ (((hp.map Prod.fst).nodup_iff).mp hnd))

/-- Sorting by key is invariant under permutation of entry lists with
pairwise-distinct keys. -/
theorem sortByKey_perm_eq {α : Type} {l₁ l₂ : List (String × α)} (hp : l₁.Perm l₂)
    (hnd : (l₁.map Prod.fst).Nodup) : sortByKey l₁ = sortByKey l₂ :=
  sorted_perm_eq_of_nodup_keys
    ((List.perm_insertionSort keyRel l₁).trans (hp.trans (List.perm_insertionSort keyRel l₂).symm))
    (List.sorted_insertionSort keyRel l₁) (List.sorted_insertionSort keyRel l₂)
    (((List.perm_insertionSort keyRel l₁).map Prod.fst).nodup_iff.mpr hnd)

/-! ## Serialization lemmas -/

/-- `dumpEntries` is a map over the entries, keeping keys. -/
theorem dumpEntries_eq_map (l : List (String × Json)) :
    dumpEntries l = l.map (fun kv => (kv.1, dumps kv.2)) := by
  induction l with
  | nil => rfl
  | cons kv rest ih =>
    rw [show dumpEntries (kv :: rest) = (kv.1, dumps kv.2) :: dumpEntries rest from rfl, ih]
    rfl

/-- `dumpList` is a map. -/
theorem dumpList_eq_map (l : List Json) : dumpList l = l.map dumps := by
  induction l with
  | nil => rfl
  | cons x xs ih =>
    rw [show dumpList (x :: xs) = dumps x :: dumpList xs from rfl, ih]
    rfl

/-- `canonEntries` is a map over the entries, keeping keys. -/
theorem canonEntries_eq_map (l : List (String × Json)) :
    canonEntries l = l.map (fun kv => (kv.1, canon kv.2)) := by
  induction l with
  | nil => rfl
  | cons kv rest ih =>
    rw [show canonEntries (kv :: rest) = (kv.1, canon kv.2) :: canonEntries rest from rfl, ih]
    rfl

/-- Serializing entries then sorting the (key, string) pairs equals
sorting the entries by key and then serializing each, which is literally
what `json.dumps(..., sort_keys=True)` does. -/
theorem sort_dumpEntries_comm (kvs : List (String × Json)) :
    sortByKey (dumpEntries kvs) = (sortByKey kvs).map (fun kv => (kv.1, dumps kv.2)) := by
  rw [dumpEntries_eq_map, sortByKey, sortByKey,
    List.map_insertionSort keyRel keyRel (fun kv => (kv.1, dumps kv.2)) kvs
      (fun _ _ _ _ => Iff.rfl)]

/-- The object case of `dumps`, rewritten in sort-first form: serialize
the key-sorted entry list. -/
theorem dumps_obj_sort_then_serialize (kvs : List (String × Json)) :
    dumps (.obj kvs) = "\x7b" ++ String.intercalate ","
      ((sortByKey kvs).map (fun kv => dumpString kv.1 ++ ":" ++ dumps kv.2)) ++ "\x7d" := by
  rw [show dumps (.obj kvs) =
      "\x7b" ++ String.intercalate "," ((sortByKey (dumpEntries kvs)).map entryStr) ++ "\x7d" from rfl,
    sort_dumpEntries_comm, List.map_map]
  rfl

mutual

/-- Serialization only depends on the canonical form: sorting object
entries before serializing changes nothing, because `dumps` itself sorts
every object level by key. -/
theorem dumps_canon : ∀ j : Json, dumps (canon j) = dumps j
  | .null => rfl
  | .bool true => rfl
  | .bool false => rfl
  | .num _ => rfl
  | .str _ => rfl
  | .arr xs => by
    rw [show canon (.arr xs) = .arr (canonList xs) from rfl,
      show dumps (.arr (canonList xs)) =
        "[" ++ String.intercalate "," (dumpList (canonList xs)) ++ "]" from rfl,
      dumpList_canonList xs]
    rfl
  | .obj kvs => by
    rw [show canon (.obj kvs) = .obj (sortByKey (canonEntries kvs)) from rfl,
      show dumps (.obj (sortByKey (canonEntries kvs))) = "\x7b" ++ String.intercalate ","
        ((sortByKey (dumpEntries (sortByKey (canonEntries kvs)))).map entryStr) ++ "\x7d" from rfl,
      show dumps (.obj kvs) = "\x7b" ++ String.intercalate ","
        ((sortByKey (dumpEntries kvs)).map entryStr) ++ "\x7d" from rfl]
    have h1 : dumpEntries (sortByKey (canonEntries kvs)) =
        sortByKey (dumpEntries (canonEntries kvs)) := by
      rw [dumpEntries_eq_map, dumpEntries_eq_map, sortByKey, sortByKey,
        List.map_insertionSort keyRel keyRel (fun kv => (kv.1, dumps kv.2)) (canonEntries kvs)
          (fun _ _ _ _ => Iff.rfl)]
    rw [h1, dumpEntries_canonEntries kvs,
      show sortByKey (sortByKey (dumpEntries kvs)) = sortByKey (dumpEntries kvs) from
        (List.sorted_insertionSort keyRel (dumpEntries kvs)).insertionSort_eq]
termination_by structural j => j

/-- Element-wise form of `dumps_canon` for arrays. -/
theorem dumpList_canonList : ∀ xs : List Json, dumpList (canonList xs) = dumpList xs
  | [] => rfl
  | x :: xs => by
    rw [show canonList (x :: xs) = canon x :: canonList xs from rfl,
      show dumpList (canon x :: canonList xs) =
        dumps (canon x) :: dumpList (canonList xs) from rfl,
      dumps_canon x, dumpList_canonList xs]
    rfl
termination_by structural l => l

/-- Element-wise form of `dumps_canon` for object entries. -/
theorem dumpEntries_canonEntries :
    ∀ l : List (String × Json), dumpEntries (canonEntries l) = dumpEntries l
  | [] => rfl
  | (k, v) :: rest => by
    rw [show canonEntries ((k, v) :: rest) = (k, canon v) :: canonEntries rest from rfl,
      show dumpEntries ((k, canon v) :: canonEntries rest) =
        (k, dumps (canon v)) :: dumpEntries (canonEntries rest) from rfl,
      dumps_canon v, dumpEntries_canonEntries rest]
    rfl
termination_by structural l => l

end

/-- Serialization of objects is invariant under permuting entries with
pairwise-distinct keys. -/
theorem dumps_obj_perm {kvs₁ kvs₂ : List (String × Json)} (hp : kvs₁.Perm kvs₂)
    (hnd : (kvs₁.map Prod.fst).Nodup) : dumps (.obj kvs₁) = dumps (.obj kvs₂) := by
  have hep : (dumpEntries kvs₁).Perm (dumpEntries kvs₂) := by
    rw [dumpEntries_eq_map, dumpEntries_eq_map]
    exact hp.map _
  have hend : ((dumpEntries kvs₁).map Prod.fst).Nodup := by
    rw [dumpEntries_eq_map, List.map_map]
    exact hnd
  rw [show dumps (.obj kvs₁) = "\x7b" ++ String.intercalate ","
      ((sortByKey (dumpEntries kvs₁)).map entryStr) ++ "\x7d" from rfl,
    show dumps (.obj kvs₂) = "\x7b" ++ String.intercalate ","
      ((sortByKey (dumpEntries kvs₂)).map entryStr) ++ "\x7d" from rfl,
    sortByKey_perm_eq hep hend]

/-! ## Shape of the hex digest -/

/-- Every `hexDigit` of a reduced nibble is a hexadecimal character. -/
theorem isHexChar_hexDigit (n : Nat) : isHexChar (hexDigit (n % 16)) = true := by
  have h : n % 16 < 16 := Nat.mod_lt _ (by omega)
  generalize n % 16 = m at h
  interval_cases m <;> decide

/-- Every character `wordHex` emits is a hexadecimal character. -/
theorem isHexChar_wordHex {w : Nat} {c : Char} (hc : c ∈ wordHex w) : isHexChar c = true := by
  simp only [wordHex, List.mem_cons, List.not_mem_nil, or_false] at hc
  rcases hc with h | h | h | h | h | h | h | h <;> rw [h] <;> exact isHexChar_hexDigit _

/-- The hex digest has 64 characters for every message. -/
theorem length_sha256hexChars (msg : List Nat) : (sha256hexChars msg).length = 64 := by
  simp [sha256hexChars, wordHex]

/-- Every character of the hex digest is a hexadecimal character. -/
theorem isHexChar_sha256hexChars {msg : List Nat} {c : Char} (hc : c ∈ sha256hexChars msg) :
    isHexChar c = true := by
  simp only [sha256hexChars, List.mem_append] at hc
  rcases hc with ((((((h | h) | h) | h) | h) | h) | h) | h <;> exact isHexChar_wordHex h

/-! ## Claim theorems: the signature generator -/

/-- C1: with no pregiven override, `callsignature` is deterministic (a
pure function of its inputs: two calls on equal inputs give the same
string), and payloads that are equal as key-value maps — differing only in
key insertion order, at any nesting level (`canon`-equal), in particular
top-level permutations of entries with distinct keys — yield the same
signature, because the payload is serialized with sorted keys and fixed
separators before hashing. -/
theorem callsignature_deterministic_key_order_invariant :
    (∀ (route : String) (p : Json),
      callsignature route p .none = callsignature route p .none) ∧
    (∀ (route : String) (p₁ p₂ : Json), canon p₁ = canon p₂ →
      callsignature route p₁ .none = callsignature route p₂ .none) ∧
    (∀ (route : String) (kvs₁ kvs₂ : List (String × Json)), kvs₁.Perm kvs₂ →
      (kvs₁.map Prod.fst).Nodup →
      callsignature route (.obj kvs₁) .none = callsignature route (.obj kvs₂) .none) := by
  refine ⟨fun _ _ => rfl, ?_, ?_⟩
  · intro route p₁ p₂ h
    have hd : dumps p₁ = dumps p₂ := by rw [← dumps_canon p₁, ← dumps_canon p₂, h]
    simp only [callsignature]
    rw [hd]
  · intro route kvs₁ kvs₂ hperm hnd
    simp only [callsignature]
    rw [dumps_obj_perm hperm hnd]

/-- Witness for C1 at concrete inputs: reordering the keys of a payload
(canon-equal, and a top-level permutation with distinct keys) leaves the
signature unchanged. -/
theorem callsignature_deterministic_key_order_invariant_witness :
    callsignature "/compute/pca" (Json.obj [("b", Json.num 1), ("a", Json.num 2)]) .none =
      callsignature "/compute/pca" (Json.obj [("a", Json.num 2), ("b", Json.num 1)]) .none ∧
    callsignature "/x" (Json.obj [("k", Json.str "v"), ("j", Json.null)]) .none =
      callsignature "/x" (Json.obj [("j", Json.null), ("k", Json.str "v")]) .none :=
  ⟨callsignature_deterministic_key_order_invariant.2.1 "/compute/pca" _ _ rfl,
   callsignature_deterministic_key_order_invariant.2.2 "/x" _ _
     (List.Perm.swap ("j", Json.null) ("k", Json.str "v") []) (by decide)⟩

/-- C2: with a non-None pregiven override, `callsignature` returns it
unchanged, independent of route and payload. -/
theorem callsignature_pregiven (route : String) (request_data : Json) (x : String) :
    callsignature route request_data (some x) = x := rfl

/-- C9: with no pregiven override the signature is exactly 72 hexadecimal
characters — the first 8 characters of the SHA-256 hex digest of the
route followed by the full 64-character SHA-256 hex digest of the
canonical payload serialization — and consequently only the 8-character
(32-bit) route-hash prefix depends on the route: any route with the same
prefix yields the same signature for the same payload. -/
theorem callsignature_structure (route : String) (p : Json) :
    (callsignature route p .none).length = 72 ∧
    (callsignature route p .none).data =
      (sha256hexChars (utf8Bytes route)).take 8 ++ sha256hexChars (utf8Bytes (dumps p)) ∧
    (sha256hexChars (utf8Bytes (dumps p))).length = 64 ∧
    (∀ c ∈ (callsignature route p .none).data, isHexChar c = true) ∧
    (∀ route2 : String,
      (sha256hexChars (utf8Bytes route2)).take 8 = (sha256hexChars (utf8Bytes route)).take 8 →
      callsignature route2 p .none = callsignature route p .none) := by
  refine ⟨?_, rfl, length_sha256hexChars _, ?_, ?_⟩
  · show (String.mk _).length = 72
    simp [String.length, List.length_take, length_sha256hexChars]
  · intro c hc
    have hc2 : c ∈ (sha256hexChars (utf8Bytes route)).take 8 ∨
        c ∈ sha256hexChars (utf8Bytes (dumps p)) := by
      simpa [callsignature] using hc
    rcases hc2 with h | h
    · exact isHexChar_sha256hexChars (List.mem_of_mem_take h)
    · exact isHexChar_sha256hexChars h
  · intro route2 h
    simp only [callsignature]
    rw [h]

/-- Witness for C9 at a concrete input. -/
theorem callsignature_structure_witness :
    (callsignature "/health" (Json.obj []) .none).length = 72 ∧
    (callsignature "/health" (Json.obj []) .none).data =
      (sha256hexChars (utf8Bytes "/health")).take 8 ++
        sha256hexChars (utf8Bytes (dumps (Json.obj []))) ∧
    (sha256hexChars (utf8Bytes (dumps (Json.obj [])))).length = 64 ∧
    (∀ c ∈ (callsignature "/health" (Json.obj []) .none).data, isHexChar c = true) ∧
    (∀ route2 : String,
      (sha256hexChars (utf8Bytes route2)).take 8 =
        (sha256hexChars (utf8Bytes "/health")).take 8 →
      callsignature route2 (Json.obj []) .none = callsignature "/health" (Json.obj []) .none) :=
  callsignature_structure "/health" (Json.obj [])

/-- C8 counterexample: the claim "distinct routes with identical payload
always produce different signatures" is false on the code: the distinct
routes "r50007" and "r102831" have SHA-256 digests agreeing on the first 8
hex characters, so with the same payload `{}` their signatures are
identical (the signature keeps only 32 bits of the route hash). -/
theorem callsignature_route_collision :
    "r50007" ≠ "r102831" ∧
    callsignature "r50007" (Json.obj []) .none = callsignature "r102831" (Json.obj []) .none :=
  ⟨by decide, by decide⟩

/-- C8 amended: distinct routes yield different signatures for the same
payload exactly when their 8-character route-hash prefixes differ; a
32-bit prefix collision (exhibited in `callsignature_route_collision`)
yields equal signatures. -/
theorem callsignature_ne_of_route_hash_ne (r₁ r₂ : String) (p : Json)
    (h : (sha256hexChars (utf8Bytes r₁)).take 8 ≠ (sha256hexChars (utf8Bytes r₂)).take 8) :
    callsignature r₁ p .none ≠ callsignature r₂ p .none := by
  intro heq
  apply h
  have hd : (sha256hexChars (utf8Bytes r₁)).take 8 ++ sha256hexChars (utf8Bytes (dumps p)) =
      (sha256hexChars (utf8Bytes r₂)).take 8 ++ sha256hexChars (utf8Bytes (dumps p)) := by
    have h2 := congrArg String.data heq
    simpa [callsignature] using h2
  exact List.append_cancel_right hd

/-- Witness for the amended C8 at the concrete routes of the test suite:
different 32-bit route-hash prefixes force different signatures. -/
theorem callsignature_ne_of_route_hash_ne_witness :
    callsignature "/compute/pca" (Json.obj []) .none ≠
      callsignature "/api/v2/pca" (Json.obj []) .none :=
  callsignature_ne_of_route_hash_ne "/compute/pca" "/api/v2/pca" (Json.obj []) (by decide)

/-! ## Claim theorems: the response cache -/

/-- Looking up a signature right after writing it finds the written
content. -/
theorem fsLookup_fsInsert {α : Type} (fs : CacheFS α) (s : String) (d : PickleData α) :
    fsLookup (fsInsert fs s d) s = some d := by
  induction fs with
  | nil => simp [fsInsert, fsLookup]
  | cons kv rest ih =>
    by_cases h : kv.1 = s
    · simp [fsInsert, fsLookup, h]
    · simp [fsInsert, fsLookup, h, ih]

/-- C3: `cache_response(s, v)` (with the write succeeding) followed by
`get_cached_response(s)` returns `v`; after `clear_cache()` the cache is
empty — every lookup returns None and `get_cache_info` counts zero cached
requests; and `get_cached_response` on a signature that was never stored
returns None without raising. -/
theorem cache_roundtrip_clear_and_miss :
    (∀ (α : Type) (fs : CacheFS α) (s : String) (v : α),
      cache_response fs s v .success = .ok (fsInsert fs s (.ok v)) ∧
      get_cached_response (fsInsert fs s (.ok v)) s = .ok (some v, fsInsert fs s (.ok v))) ∧
    (∀ (α : Type) (fs : CacheFS α) (s : String),
      get_cached_response (clear_cache fs) s = .ok (none, clear_cache fs) ∧
      cached_requests (clear_cache fs) = 0) ∧
    (∀ (α : Type) (fs : CacheFS α) (s : String), fsLookup fs s = none →
      get_cached_response fs s = .ok (none, fs)) := by
  refine ⟨?_, ?_, ?_⟩
  · intro α fs s v
    exact ⟨rfl, by simp [get_cached_response, fsLookup_fsInsert, pickleLoad]⟩
  · intro α fs s
    exact ⟨rfl, rfl⟩
  · intro α fs s h
    simp [get_cached_response, h]

/-- Witness for C3 at concrete inputs. -/
theorem cache_roundtrip_clear_and_miss_witness :
    cache_response ([] : CacheFS Nat) "sig" 7 .success = .ok [("sig", .ok 7)] ∧
    get_cached_response [(("sig" : String), PickleData.ok 7)] "sig" =
      .ok (some 7, [("sig", .ok 7)]) ∧
    get_cached_response (clear_cache [(("sig" : String), PickleData.ok 7)]) "sig" =
      .ok (none, ([] : CacheFS Nat)) ∧
    cached_requests (clear_cache [(("sig" : String), PickleData.ok 7)]) = 0 ∧
    get_cached_response ([] : CacheFS Nat) "missing" = .ok (none, []) :=
  ⟨(cache_roundtrip_clear_and_miss.1 Nat [] "sig" 7).1,
   (cache_roundtrip_clear_and_miss.1 Nat [] "sig" 7).2,
   (cache_roundtrip_clear_and_miss.2.1 Nat [("sig", .ok 7)] "sig").1,
   (cache_roundtrip_clear_and_miss.2.1 Nat [("sig", .ok 7)] "sig").2,
   cache_roundtrip_clear_and_miss.2.2 Nat [] "missing" rfl⟩

/-- C5: a write failure raising `IOError`/`OSError` is swallowed by the
`except (IOError, OSError): pass` clause: `cache_response` returns
normally (Python `None`) with the cache unchanged, and a successful write
also returns normally.  (A `pickle.PicklingError` from an unpicklable
value is a serialization failure, not an I/O or OS error, and is modelled
separately as the uncaught `WriteOutcome.picklingError`.) -/
theorem cache_response_swallows_io_errors (α : Type) (fs : CacheFS α) (s : String) (v : α) :
    cache_response fs s v .osError = .ok fs ∧
    cache_response fs s v .success = .ok (fsInsert fs s (.ok v)) :=
  ⟨rfl, rfl⟩

/-- C6 counterexample: a cache file whose content makes `pickle.load`
raise an exception other than `pickle.PickleError`/`EOFError` (per the
pickle documentation e.g. `AttributeError` from a pickled reference to a
class that no longer exists) is not treated as a cache miss: the exception
escapes `get_cached_response` and the file is not deleted, contradicting
"it does this for every kind of deserialization failure". -/
theorem get_cached_response_other_error_propagates :
    get_cached_response [(("s" : String), (PickleData.corruptOther : PickleData Nat))] "s" =
      .error .otherError := rfl

/-- C6 amended: a corrupted cache file is treated as a miss — None is
returned and the file deleted — exactly when deserialization fails with
`pickle.PickleError` or `EOFError` (the classes the `except` clause
names); other deserialization exceptions propagate. -/
theorem get_cached_response_corrupt_miss (α : Type) (fs : CacheFS α) (s : String)
    (d : PickleData α) (hl : fsLookup fs s = some d)
    (hd : d = .corruptPickle ∨ d = .corruptEof) :
    get_cached_response fs s = .ok (none, fsErase fs s) := by
  rcases hd with h | h <;> subst h <;> simp [get_cached_response, hl, pickleLoad]

/-- Witness for the amended C6 at a concrete corrupted cache. -/
theorem get_cached_response_corrupt_miss_witness :
    get_cached_response [(("s" : String), (PickleData.corruptPickle : PickleData Nat))] "s" =
      .ok (none, []) :=
  get_cached_response_corrupt_miss Nat [("s", .corruptPickle)] "s" .corruptPickle rfl (.inl rfl)

/-! ## Claim theorems: the dispatcher and the CLI -/

/-- C4 (evidence for the code bug): every dispatcher method computes the
request signature, but its effect trace is exactly one HTTP request — it
contains no `get_cached_response` call at all, for every client
configuration including `use_cache = true`, contradicting the class's own
documentation of `use_cache` and the spec's dispatcher design. -/
theorem dispatchers_never_consult_cache (c : Client) (route : String) (data : Option Json) :
    client_get_trace c route =
      [Effect.httpRequest "GET" route (callsignature route (Json.obj []) none)] ∧
    client_delete_trace c route =
      [Effect.httpRequest "DELETE" route (callsignature route (Json.obj []) none)] ∧
    client_post_trace c route data =
      [Effect.httpRequest "POST" route (callsignature route (pyDataOr data) none)] ∧
    client_put_trace c route data =
      [Effect.httpRequest "PUT" route (callsignature route (pyDataOr data) none)] ∧
    client_patch_trace c route data =
      [Effect.httpRequest "PATCH" route (callsignature route (pyDataOr data) none)] ∧
    (∀ s, Effect.cacheRead s ∉ client_get_trace c route) ∧
    (∀ s, Effect.cacheRead s ∉ client_delete_trace c route) ∧
    (∀ s, Effect.cacheRead s ∉ client_post_trace c route data) ∧
    (∀ s, Effect.cacheRead s ∉ client_put_trace c route data) ∧
    (∀ s, Effect.cacheRead s ∉ client_patch_trace c route data) := by
  refine ⟨rfl, rfl, rfl, rfl, rfl, ?_, ?_, ?_, ?_, ?_⟩ <;> intro s <;>
    simp [client_get_trace, client_delete_trace, client_post_trace, client_put_trace,
      client_patch_trace]

/-- C7 counterexample: `--data ''` is a malformed JSON document
(`json.loads("")` raises), yet `if args.data:` treats the empty string as
absent, so the CLI does not report a parse error: with a 200 response it
prints the body and exits 0, not 1. -/
theorem cli_empty_data_not_parsed :
    (fun s => if s = "" then (Except.error "Expecting value: line 1 column 1 (char 0)" :
        Except String Unit) else .ok ()) "" =
      .error "Expecting value: line 1 column 1 (char 0)" ∧
    cli_main (some "")
      (fun s => if s = "" then .error "Expecting value: line 1 column 1 (char 0)" else .ok ())
      (.ok (200, "ok")) = ⟨0, [], ["ok"]⟩ :=
  ⟨rfl, rfl⟩

/-- C7 amended: on HTTP 200 the CLI prints the response body and exits 0;
a **non-empty** malformed `--data` argument prints a parse error to stderr
and exits 1 (an empty `--data` string is falsy in Python and is skipped
rather than parsed); a transport (or client construction) exception prints
to stderr and exits 1; a non-200 status prints to stderr and exits 1. -/
theorem cli_exit_codes :
    (∀ (loads : String → Except String Unit) (s e : String)
        (send : Except String (Nat × String)), s ≠ "" → loads s = .error e →
      cli_main (some s) loads send = ⟨1, ["Error parsing JSON data: " ++ e], []⟩) ∧
    (∀ (loads : String → Except String Unit) (dataArg : Option String)
        (send : Except String (Nat × String)),
      (dataArg = none ∨ dataArg = some "" ∨ ∃ s, dataArg = some s ∧ loads s = .ok ()) →
      cli_main dataArg loads send = cli_send send) ∧
    (∀ body : String, cli_send (.ok (200, body)) = ⟨0, [], [body]⟩) ∧
    (∀ (st : Nat) (body : String), st ≠ 200 →
      cli_send (.ok (st, body)) = ⟨1, ["Error " ++ natStr st ++ ": " ++ body], []⟩) ∧
    (∀ e : String, cli_send (.error e) = ⟨1, ["Error: " ++ e], []⟩) := by
  refine ⟨?_, ?_, fun _ => rfl, ?_, fun _ => rfl⟩
  · intro loads s e send hs he
    simp [cli_main, hs, he]
  · intro loads dataArg send h
    rcases h with h | h | ⟨s, h, hok⟩ <;> subst h
    · rfl
    · simp [cli_main]
    · by_cases hs : s = ""
      · simp [cli_main, hs]
      · simp [cli_main, hs, hok]
  · intro st body h
    simp [cli_send, h]

/-- Witness for the amended C7 at concrete inputs. -/
theorem cli_exit_codes_witness :
    cli_main (some "nope") (fun _ => .error "bad") (.ok (200, "x")) =
      ⟨1, ["Error parsing JSON data: " ++ "bad"], []⟩ ∧
    cli_main (some "1") (fun _ => .ok ()) (.ok (200, "x")) = cli_send (.ok (200, "x")) ∧
    cli_send (.ok (200, "x")) = ⟨0, [], ["x"]⟩ ∧
    cli_send (.ok (404, "nf")) = ⟨1, ["Error " ++ natStr 404 ++ ": " ++ "nf"], []⟩ ∧
    cli_send (.error "boom") = ⟨1, ["Error: " ++ "boom"], []⟩ :=
  ⟨cli_exit_codes.1 (fun _ => .error "bad") "nope" "bad" (.ok (200, "x")) (by decide) rfl,
   cli_exit_codes.2.1 (fun _ => .ok ()) (some "1") (.ok (200, "x")) (.inr (.inr ⟨"1", rfl, rfl⟩)),
   cli_exit_codes.2.2.1 "x",
   cli_exit_codes.2.2.2.1 404 "nf" (by decide),
   cli_exit_codes.2.2.2.2 "boom"⟩

/-! ## Claim theorems: token resolution -/

/-- C10 counterexample: with no token argument and `ECONOPS_TOKEN` set to
the empty string, the token resolves to the empty string (the `'demo'`
default applies only when the variable is **unset**), so `Client.__init__`
raises `ValueError`: the guard is reachable, contradicting the claim. -/
theorem client_init_token_error_reachable :
    client_init_token none (some "") =
      .error "Token not provided and 'ECONOPS_TOKEN' environment variable not found" := rfl

/-- C10 amended: construction never raises for a **missing** token — with
the argument and the variable both absent the token defaults to "demo" —
and the `ValueError` guard fires exactly when the token argument is absent
or empty while `ECONOPS_TOKEN` is set to the empty string. -/
theorem client_init_token_characterization :
    client_init_token none none = .ok "demo" ∧
    (∀ (ta env : Option String),
      (∃ e, client_init_token ta env = .error e) ↔
        ((ta = none ∨ ta = some "") ∧ env = some "")) := by
  refine ⟨rfl, ?_⟩
  intro ta env
  rcases ta with _ | s <;> rcases env with _ | t
  · simp [client_init_token, pyStrOr]
  · by_cases ht : t = "" <;> simp [client_init_token, pyStrOr, ht]
  · by_cases hs : s = "" <;> simp [client_init_token, pyStrOr, hs]
  · by_cases hs : s = "" <;> by_cases ht : t = "" <;>
      simp [client_init_token, pyStrOr, hs, ht]

/-- Witness for the amended C10 at concrete inputs. -/
theorem client_init_token_characterization_witness :
    client_init_token none none = .ok "demo" ∧
    (∃ e, client_init_token none (some "") = .error e) :=
  ⟨client_init_token_characterization.1,
   (client_init_token_characterization.2 none (some "")).mpr ⟨.inl rfl, rfl⟩⟩

end Econops
